import Mathlib

/-!
# FreeCAD Navigator, Linux runner (`linux/runner/my_application.cc`)

A shallow embedding of the runner's decision logic:

* `load_app_icon`: the ordered icon fallback search (candidate files next to the
  executable, then the icon theme);
* the chrome decision of `my_application_activate` (header bar or traditional title bar);
* `my_application_activate` as a transformer of the toolkit state;
* `my_application_local_command_line` (argument capture, registration, exit status);
* `first_frame_cb` and the lifecycle step relation built from activation and the
  first-frame signal.

The toolkit (GLib / GDK / GTK / the Flutter embedder) is not part of the repository.
Its fallible entry points are oracles in `Env`; its setters are modelled as record
updates on the widget they act on.  Nullable pointers are `Option`s.
-/

namespace FreecadNavigator

/-! ## Toolkit values -/

/-- A non-null `GError*`: only the message is observable. -/
structure GError where
  message : String
deriving DecidableEq

/-- A non-null `GdkPixbuf*`, identified by an abstract handle. -/
structure GdkPixbuf where
  handle : Nat
deriving DecidableEq

/-- The lookup flags passed to `gtk_icon_theme_load_icon`. -/
inductive GtkIconLookupFlags where
  | GTK_ICON_LOOKUP_USE_BUILTIN
deriving DecidableEq

/-- The windowing backend a `GdkScreen` belongs to. -/
inductive GdkBackend where
  | x11
  | wayland
  | broadway
  | other (name : String)
deriving DecidableEq

/-- What the runner can observe of the `GdkScreen` of a window: its backend and the
window-manager name the X11 backend reports (`none` is a null string). -/
structure GdkScreen where
  backend : GdkBackend
  window_manager_name : Option String
deriving DecidableEq

/-- The outside world as seen by the runner.  Every field is a call into a library or
the operating system whose result the runner branches on or passes along. -/
structure Env where
  /-- Was `GDK_WINDOWING_X11` defined when the runner was compiled (lines 6 and 105)? -/
  GDK_WINDOWING_X11 : Bool
  /-- The call `g_file_read_link(path, nullptr)`: the link target, or null. -/
  g_file_read_link : String → Option String
  /-- The call `g_path_get_dirname(path)`. -/
  g_path_get_dirname : String → String
  /-- The call `g_build_filename(dir, rel, nullptr)`. -/
  g_build_filename : String → String → String
  /-- Outcome of decoding the image file at a path (`gdk_pixbuf_new_from_file`). -/
  decode_file : String → Except GError GdkPixbuf
  /-- Outcome of `gtk_icon_theme_load_icon` on the default theme for a name and size. -/
  theme_load_icon : String → Nat → GtkIconLookupFlags → Except GError GdkPixbuf
  /-- The result of `gtk_window_get_screen` for a new window. -/
  screen : GdkScreen
  /-- Outcome of `g_application_register`. -/
  register : Except GError Unit

/-! ## `load_app_icon` -/

/-- The observable calls made by `load_app_icon`, in program order.  The two calls that
receive `&error` record what the error slot held when the call was made. -/
inductive IconEvent where
  | read_link (path : String)
  | decode (full_path : String) (error_at_call : Option GError)
  | clear_error
  | print (text : String)
  | theme_lookup (name : String) (size : Nat) (flags : GtkIconLookupFlags)
      (error_at_call : Option GError)
deriving DecidableEq

/-- The locals of `load_app_icon` (lines 21 and 22) together with the call trace. -/
structure IconState where
  icon_pixbuf : Option GdkPixbuf
  error : Option GError
  trace : List IconEvent
deriving DecidableEq

/-- The call `g_set_error` on a `GError**`: an empty slot receives the error; a slot that
is already set keeps its content (GLib warns and drops the new error). -/
def g_set_error (slot : Option GError) (e : GError) : Option GError :=
  match slot with
  | none => some e
  | some old => some old

/-- The call `g_clear_error(&error)`: the slot is null afterwards. -/
def g_clear_error (st : IconState) : IconState :=
  { st with error := none, trace := st.trace ++ [IconEvent.clear_error] }

/-- The call `g_print` inside `load_app_icon`. -/
def g_print (st : IconState) (text : String) : IconState :=
  { st with trace := st.trace ++ [IconEvent.print text] }

/-- The statement `icon_pixbuf = gdk_pixbuf_new_from_file(full_path, &error)` (line 39):
success yields the image and leaves the slot alone, failure yields null and sets the
error. -/
def gdk_pixbuf_new_from_file (env : Env) (full_path : String) (st : IconState) : IconState :=
  match env.decode_file full_path with
  | Except.ok pixbuf =>
      { icon_pixbuf := some pixbuf
        error := st.error
        trace := st.trace ++ [IconEvent.decode full_path st.error] }
  | Except.error e =>
      { icon_pixbuf := none
        error := g_set_error st.error e
        trace := st.trace ++ [IconEvent.decode full_path st.error] }

/-- The statement `icon_pixbuf = gtk_icon_theme_load_icon(icon_theme, name, size, flags,
&error)` (line 54). -/
def gtk_icon_theme_load_icon (env : Env) (name : String) (size : Nat)
    (flags : GtkIconLookupFlags) (st : IconState) : IconState :=
  match env.theme_load_icon name size flags with
  | Except.ok pixbuf =>
      { icon_pixbuf := some pixbuf
        error := st.error
        trace := st.trace ++ [IconEvent.theme_lookup name size flags st.error] }
  | Except.error e =>
      { icon_pixbuf := none
        error := g_set_error st.error e
        trace := st.trace ++ [IconEvent.theme_lookup name size flags st.error] }

/-- The candidate list of lines 25 to 31, without its null terminator. -/
def icon_paths : List String :=
  [ "assets/images/FreeCadExplorer_Logo.png",
    "data/flutter_assets/assets/images/FreeCadExplorer_Logo.png",
    "../data/flutter_assets/assets/images/FreeCadExplorer_Logo.png",
    "../../../../assets/images/FreeCadExplorer_Logo.png" ]

/-- The `for` loop of lines 37 to 45 over the remaining candidates: decode, on success
print and `break`, otherwise clear the error and go on. -/
def icon_loop (env : Env) (executable_dir : String) : List String → IconState → IconState
  | [], st => st
  | rel :: rest, st =>
      let full_path := env.g_build_filename executable_dir rel
      let st1 := gdk_pixbuf_new_from_file env full_path st
      match st1.icon_pixbuf with
      | some _ => g_print st1 ("Loaded icon from: " ++ full_path ++ "\n")
      | none => icon_loop env executable_dir rest (g_clear_error st1)

/-- Lines 33 to 49: read the executable link and, when that succeeds, run the loop. -/
def load_app_icon_candidates (env : Env) : IconState :=
  let st0 : IconState :=
    { icon_pixbuf := none, error := none, trace := [IconEvent.read_link "/proc/self/exe"] }
  match env.g_file_read_link "/proc/self/exe" with
  | some executable_path =>
      let executable_dir := env.g_path_get_dirname executable_path
      icon_loop env executable_dir icon_paths st0
  | none => st0

/-- Lines 51 to 58: the icon-theme fallback, taken only when `icon_pixbuf` is null. -/
def load_app_icon_theme (env : Env) (st : IconState) : IconState :=
  match st.icon_pixbuf with
  | none =>
      let st1 := gtk_icon_theme_load_icon env "freecad_navigator" 48
        GtkIconLookupFlags.GTK_ICON_LOOKUP_USE_BUILTIN st
      match st1.icon_pixbuf with
      | some _ => g_print st1 "Loaded icon from system theme\n"
      | none => st1
  | some _ => st

/-- The function `load_app_icon` (lines 20 to 61); its return value is the `icon_pixbuf`
field of the final state. -/
def load_app_icon (env : Env) : IconState :=
  load_app_icon_theme env (load_app_icon_candidates env)

/-! ### Observations on a trace -/

/-- The path of a decode call. -/
def IconEvent.decodedPath : IconEvent → Option String
  | IconEvent.decode full_path _ => some full_path
  | IconEvent.read_link _ => none
  | IconEvent.clear_error => none
  | IconEvent.print _ => none
  | IconEvent.theme_lookup _ _ _ _ => none

/-- The name and size of an icon-theme query. -/
def IconEvent.themeQuery : IconEvent → Option (String × Nat)
  | IconEvent.theme_lookup name size _ _ => some (name, size)
  | IconEvent.read_link _ => none
  | IconEvent.decode _ _ => none
  | IconEvent.clear_error => none
  | IconEvent.print _ => none

/-- The text of a `g_print` call. -/
def IconEvent.printedText : IconEvent → Option String
  | IconEvent.print text => some text
  | IconEvent.read_link _ => none
  | IconEvent.decode _ _ => none
  | IconEvent.clear_error => none
  | IconEvent.theme_lookup _ _ _ _ => none

/-- The content of the error slot handed to a call that receives `&error`. -/
def IconEvent.errorAtCall : IconEvent → Option (Option GError)
  | IconEvent.decode _ e => some e
  | IconEvent.theme_lookup _ _ _ e => some e
  | IconEvent.read_link _ => none
  | IconEvent.clear_error => none
  | IconEvent.print _ => none

/-- The paths handed to `gdk_pixbuf_new_from_file`, in call order. -/
def decodedPaths (trace : List IconEvent) : List String :=
  trace.filterMap IconEvent.decodedPath

/-- The icon-theme queries made, in call order. -/
def themeQueries (trace : List IconEvent) : List (String × Nat) :=
  trace.filterMap IconEvent.themeQuery

/-- The lines written by `g_print`, in call order. -/
def printed (trace : List IconEvent) : List String :=
  trace.filterMap IconEvent.printedText

/-- The content of the error slot at each call that received `&error`, in call order. -/
def errorsAtCalls (trace : List IconEvent) : List (Option GError) :=
  trace.filterMap IconEvent.errorAtCall

/-- The trace of a pass over candidates that all fail to decode. -/
def failedAttempts (env : Env) (executable_dir : String) (rels : List String) :
    List IconEvent :=
  rels.flatMap (fun rel =>
    [IconEvent.decode (env.g_build_filename executable_dir rel) none, IconEvent.clear_error])

/-- The full path of candidate `i` for executable path `p`. -/
def candidatePath (env : Env) (p : String) (i : Nat) : String :=
  env.g_build_filename (env.g_path_get_dirname p) (icon_paths[i]?.getD "")

/-! ## The chrome decision -/

/-- The C function `strcmp` on the characters of two strings, up to the sign of its
result.  Order of code points is the order of the bytes of their UTF-8 encoding. -/
def strcmp : List Char → List Char → Int
  | [], [] => 0
  | [], _ :: _ => -1
  | _ :: _, [] => 1
  | a :: as, b :: bs => if a = b then strcmp as bs else if a < b then -1 else 1

/-- The call `g_strcmp0`: `strcmp` that also accepts null, null sorting first. -/
def g_strcmp0 (str1 str2 : Option String) : Int :=
  match str1, str2 with
  | none, none => 0
  | none, some _ => -1
  | some _, none => 1
  | some a, some b => strcmp a.data b.data

/-- The macro `GDK_IS_X11_SCREEN`. -/
def GDK_IS_X11_SCREEN (screen : GdkScreen) : Bool :=
  decide (screen.backend = GdkBackend.x11)

/-- The call `gdk_x11_screen_get_window_manager_name`. -/
def gdk_x11_screen_get_window_manager_name (screen : GdkScreen) : Option String :=
  screen.window_manager_name

/-- Lines 104 to 113 of `my_application_activate`: the value of `use_header_bar` when
line 114 is reached.  The block between `#ifdef GDK_WINDOWING_X11` and `#endif` exists
only in builds with the X11 backend. -/
def use_header_bar (env : Env) : Bool :=
  if env.GDK_WINDOWING_X11 then
    let screen := env.screen
    if GDK_IS_X11_SCREEN screen then
      let wm_name := gdk_x11_screen_get_window_manager_name screen
      if g_strcmp0 wm_name (some "GNOME Shell") ≠ 0 then false else true
    else true
  else true

/-! ## Widgets and the toolkit state -/

/-- A `GtkHeaderBar` widget. -/
structure GtkHeaderBar where
  visible : Bool
  title : Option String
  show_close_button : Bool
deriving DecidableEq

/-- An `FlDartProject`. -/
structure FlDartProject where
  dart_entrypoint_arguments : Option (List String)
deriving DecidableEq

/-- An `FlView` widget.  `handle` identifies the widget; `first_frame_handler` says
whether `first_frame_cb` is connected to its `first-frame` signal. -/
structure FlView where
  handle : Nat
  project : FlDartProject
  background_color : Option String
  visible : Bool
  realized : Bool
  first_frame_handler : Bool
  plugins_registered : Bool
  has_focus : Bool
deriving DecidableEq

/-- A top-level `GtkApplicationWindow`. -/
structure GtkWindow where
  visible : Bool
  realized : Bool
  icon_name : Option String
  icon : Option GdkPixbuf
  titlebar : Option GtkHeaderBar
  title : Option String
  default_size : Option (Nat × Nat)
  child : Option FlView
deriving DecidableEq

/-- The process-wide toolkit state the runner acts on. -/
structure GtkState where
  windows : List GtkWindow
  application_name : Option String
  default_icon_list : List GdkPixbuf
  stdout : List String
deriving DecidableEq

/-- The instance struct `_MyApplication` (lines 12 to 15); null before
`my_application_local_command_line` has run. -/
structure MyApplication where
  dart_entrypoint_arguments : Option (List String)
deriving DecidableEq

/-- The toolkit state of a fresh process. -/
def GtkState.initial : GtkState :=
  { windows := [], application_name := none, default_icon_list := [], stdout := [] }

/-- The call `gtk_application_window_new`: a new, hidden top-level window. -/
def gtk_application_window_new : GtkWindow :=
  { visible := false, realized := false, icon_name := none, icon := none,
    titlebar := none, title := none, default_size := none, child := none }

/-- The call `g_set_application_name`. -/
def g_set_application_name (s : GtkState) (name : String) : GtkState :=
  { s with application_name := some name }

/-- The call `g_print` at the level of the process: one more line on standard output. -/
def GtkState.g_print (s : GtkState) (text : String) : GtkState :=
  { s with stdout := s.stdout ++ [text] }

/-- The call `gtk_window_set_icon_name`. -/
def gtk_window_set_icon_name (window : GtkWindow) (name : String) : GtkWindow :=
  { window with icon_name := some name }

/-- The call `gtk_window_set_icon`. -/
def gtk_window_set_icon (window : GtkWindow) (icon : GdkPixbuf) : GtkWindow :=
  { window with icon := some icon }

/-- The call `gtk_window_set_default_icon_list`. -/
def gtk_window_set_default_icon_list (s : GtkState) (list : List GdkPixbuf) : GtkState :=
  { s with default_icon_list := list }

/-- The call `gtk_window_set_default_icon`: the default icon list becomes the one-element
list of this icon. -/
def gtk_window_set_default_icon (s : GtkState) (icon : GdkPixbuf) : GtkState :=
  gtk_window_set_default_icon_list s [icon]

/-- The call `g_list_append`. -/
def g_list_append (list : List GdkPixbuf) (data : GdkPixbuf) : List GdkPixbuf :=
  list ++ [data]

/-- The call `gtk_header_bar_new`: a new, hidden header bar. -/
def gtk_header_bar_new : GtkHeaderBar :=
  { visible := false, title := none, show_close_button := false }

/-- The call `gtk_widget_show` on a header bar. -/
def GtkHeaderBar.gtk_widget_show (bar : GtkHeaderBar) : GtkHeaderBar :=
  { bar with visible := true }

/-- The call `gtk_header_bar_set_title`. -/
def gtk_header_bar_set_title (bar : GtkHeaderBar) (title : String) : GtkHeaderBar :=
  { bar with title := some title }

/-- The call `gtk_header_bar_set_show_close_button`. -/
def gtk_header_bar_set_show_close_button (bar : GtkHeaderBar) (setting : Bool) :
    GtkHeaderBar :=
  { bar with show_close_button := setting }

/-- The call `gtk_window_set_titlebar`. -/
def gtk_window_set_titlebar (window : GtkWindow) (bar : GtkHeaderBar) : GtkWindow :=
  { window with titlebar := some bar }

/-- The call `gtk_window_set_title`. -/
def gtk_window_set_title (window : GtkWindow) (title : String) : GtkWindow :=
  { window with title := some title }

/-- The call `gtk_window_set_default_size`. -/
def gtk_window_set_default_size (window : GtkWindow) (width height : Nat) : GtkWindow :=
  { window with default_size := some (width, height) }

/-- The call `fl_dart_project_new`. -/
def fl_dart_project_new : FlDartProject :=
  { dart_entrypoint_arguments := none }

/-- The call `fl_dart_project_set_dart_entrypoint_arguments`. -/
def fl_dart_project_set_dart_entrypoint_arguments (_project : FlDartProject)
    (argv : Option (List String)) : FlDartProject :=
  { dart_entrypoint_arguments := argv }

/-- The call `fl_view_new`: a new, hidden view for a project. -/
def fl_view_new (handle : Nat) (project : FlDartProject) : FlView :=
  { handle := handle, project := project, background_color := none, visible := false,
    realized := false, first_frame_handler := false, plugins_registered := false,
    has_focus := false }

/-- The calls `gdk_rgba_parse` and `fl_view_set_background_color`. -/
def fl_view_set_background_color (view : FlView) (color : String) : FlView :=
  { view with background_color := some color }

/-- The call `gtk_widget_show` on the view. -/
def FlView.gtk_widget_show (view : FlView) : FlView :=
  { view with visible := true }

/-- The call `gtk_container_add(window, view)`. -/
def gtk_container_add (window : GtkWindow) (view : FlView) : GtkWindow :=
  { window with child := some view }

/-- Apply an update to the view a window contains. -/
def GtkWindow.onChild (window : GtkWindow) (f : FlView → FlView) : GtkWindow :=
  { window with child := window.child.map f }

/-- The call `g_signal_connect_swapped(view, "first-frame", first_frame_cb, self)`. -/
def g_signal_connect_first_frame (window : GtkWindow) : GtkWindow :=
  window.onChild (fun view => { view with first_frame_handler := true })

/-- The call `gtk_widget_realize` on the contained view: the view and its ancestors get
their windowing resources; no widget is shown. -/
def gtk_widget_realize (window : GtkWindow) : GtkWindow :=
  { window.onChild (fun view => { view with realized := true }) with realized := true }

/-- The call `fl_register_plugins`. -/
def fl_register_plugins (window : GtkWindow) : GtkWindow :=
  window.onChild (fun view => { view with plugins_registered := true })

/-- The call `gtk_widget_grab_focus` on the contained view. -/
def gtk_widget_grab_focus (window : GtkWindow) : GtkWindow :=
  window.onChild (fun view => { view with has_focus := true })

/-- The call `gtk_widget_show` on a top-level window, given by its index. -/
def GtkState.gtk_widget_show (s : GtkState) (w : Nat) : GtkState :=
  { s with windows := s.windows.modify (fun window => { window with visible := true }) w }

/-! ## `my_application_activate` -/

/-- Lines 81 to 95: load the icon and apply it to the window and to the process. -/
def apply_app_icon (env : Env) (window : GtkWindow) (s : GtkState) : GtkWindow × GtkState :=
  let loaded := load_app_icon env
  let s := { s with stdout := s.stdout ++ printed loaded.trace }
  match loaded.icon_pixbuf with
  | some icon_pixbuf =>
      let window := gtk_window_set_icon window icon_pixbuf
      let s := gtk_window_set_default_icon s icon_pixbuf
      let icon_list := g_list_append [] icon_pixbuf
      let s := gtk_window_set_default_icon_list s icon_list
      (window, s.g_print "Window icon set successfully\n")
  | none => (window, s.g_print "Failed to load window icon\n")

/-- Lines 114 to 122: build the header bar or set the plain title. -/
def apply_chrome (env : Env) (window : GtkWindow) : GtkWindow :=
  if use_header_bar env then
    let header_bar := gtk_header_bar_new
    let header_bar := header_bar.gtk_widget_show
    let header_bar := gtk_header_bar_set_title header_bar "FreeCAD Navigator"
    let header_bar := gtk_header_bar_set_show_close_button header_bar true
    gtk_window_set_titlebar window header_bar
  else
    gtk_window_set_title window "FreeCAD Navigator"

/-- Lines 126 to 144: create the project and the view, embed and realize the view. -/
def embed_view (self : MyApplication) (handle : Nat) (window : GtkWindow) : GtkWindow :=
  let project := fl_dart_project_new
  let project :=
    fl_dart_project_set_dart_entrypoint_arguments project self.dart_entrypoint_arguments
  let view := fl_view_new handle project
  let view := fl_view_set_background_color view "#000000"
  let view := view.gtk_widget_show
  let window := gtk_container_add window view
  let window := g_signal_connect_first_frame window
  let window := gtk_widget_realize window
  let window := fl_register_plugins window
  gtk_widget_grab_focus window

/-- The function `my_application_activate` (lines 70 to 145).  The new window is appended
to the list of top-level windows; its view gets the index of the window as handle. -/
def my_application_activate (env : Env) (self : MyApplication) (s : GtkState) : GtkState :=
  let handle := s.windows.length
  let window := gtk_application_window_new
  let s := g_set_application_name s "FreeCAD Navigator"
  let window := gtk_window_set_icon_name window "freecad_navigator"
  let (window, s) := apply_app_icon env window s
  let window := apply_chrome env window
  let window := gtk_window_set_default_size window 1280 720
  let window := embed_view self handle window
  { s with windows := s.windows ++ [window] }

/-! ## `first_frame_cb` -/

/-- The call `gtk_widget_get_toplevel` on a view: the index of the window containing
it. -/
def gtk_widget_get_toplevel (s : GtkState) (view : Nat) : Option Nat :=
  s.windows.findIdx? (fun window => window.child.any (fun v => v.handle == view))

/-- The function `first_frame_cb` (lines 64 to 67): show the top-level of the view. -/
def first_frame_cb (_self : MyApplication) (s : GtkState) (view : Nat) : GtkState :=
  match gtk_widget_get_toplevel s view with
  | some w => s.gtk_widget_show w
  | none => s

/-! ## `my_application_local_command_line` -/

/-- What `my_application_local_command_line` leaves behind: the instance, the toolkit
state, the warnings logged, the value written to `*exit_status` and the return value. -/
structure CommandLineResult where
  self : MyApplication
  gtk : GtkState
  warnings : List String
  exit_status : Int
  handled : Bool
deriving DecidableEq

/-- The call `g_strdupv`: a copy of a null-terminated string vector. -/
def g_strdupv (argv : List String) : List String :=
  argv

/-- The call `g_application_activate`: dispatches to the `activate` handler installed by
`my_application_class_init` (line 192). -/
def g_application_activate (env : Env) (self : MyApplication) (s : GtkState) : GtkState :=
  my_application_activate env self s

/-- The function `my_application_local_command_line` (lines 148 to 164).  `arguments` is
the null-terminated vector `*arguments`; on an empty vector `*arguments + 1` points past
the terminator and the function has no defined result (`none`). -/
def my_application_local_command_line (env : Env) (self : MyApplication) (s : GtkState)
    (arguments : List String) : Option CommandLineResult :=
  match arguments with
  | [] => none
  | _ :: rest =>
      let self := { self with dart_entrypoint_arguments := some (g_strdupv rest) }
      match env.register with
      | Except.error error =>
          some { self := self, gtk := s,
                 warnings := ["Failed to register: " ++ error.message],
                 exit_status := 1, handled := true }
      | Except.ok _ =>
          let s := g_application_activate env self s
          some { self := self, gtk := s, warnings := [], exit_status := 0, handled := true }

/-! ## Lifecycle -/

/-- The two callbacks the toolkit dispatches after start-up. -/
inductive LifecycleEvent where
  | activate (env : Env)
  | first_frame (view : Nat)

/-- Can the `first-frame` signal of this view reach `first_frame_cb`?  The view must
exist, be realized and have the handler connected. -/
def firstFrameEnabled (s : GtkState) (view : Nat) : Bool :=
  s.windows.any (fun window =>
    window.child.any (fun v => v.handle == view && v.realized && v.first_frame_handler))

/-- One dispatch of a callback. -/
inductive Step (self : MyApplication) : GtkState → LifecycleEvent → GtkState → Prop where
  | activate (env : Env) (s : GtkState) :
      Step self s (LifecycleEvent.activate env) (my_application_activate env self s)
  | first_frame (s : GtkState) (view : Nat) (h : firstFrameEnabled s view = true) :
      Step self s (LifecycleEvent.first_frame view) (first_frame_cb self s view)

/-- A run: the callbacks dispatched so far, oldest first, and the state they lead to. -/
inductive Run (self : MyApplication) : GtkState → List LifecycleEvent → GtkState → Prop where
  | nil (s : GtkState) : Run self s [] s
  | snoc (s t u : GtkState) (evs : List LifecycleEvent) (e : LifecycleEvent) :
      Run self s evs t → Step self t e u → Run self s (evs ++ [e]) u

/-- Has the `first-frame` signal of this view been dispatched in the run? -/
def firstFrameFired (evs : List LifecycleEvent) (view : Nat) : Prop :=
  LifecycleEvent.first_frame view ∈ evs

/-! ## Observations used in the statements -/

/-- Is the top-level window with this index shown? -/
def GtkState.windowVisible (s : GtkState) (w : Nat) : Bool :=
  match s.windows[w]? with
  | some window => window.visible
  | none => false

/-- In every window the embedded view carries the index of the window as its handle. -/
def HandlesMatch (s : GtkState) : Prop :=
  ∀ (w : Nat) (window : GtkWindow), s.windows[w]? = some window →
    ∃ view : FlView, window.child = some view ∧ view.handle = w

/-- The two chrome styles a window can end up with. -/
inductive ChromeStyle where
  | header_bar
  | traditional_title_bar
deriving DecidableEq

/-- The chrome style of a window: a header bar when a title-bar widget was installed,
the traditional title bar of the window manager otherwise. -/
def GtkWindow.chromeStyle (window : GtkWindow) : ChromeStyle :=
  match window.titlebar with
  | some _ => ChromeStyle.header_bar
  | none => ChromeStyle.traditional_title_bar

/-- Did the call recorded by this event fail in the given world? -/
def IconEvent.failed (env : Env) : IconEvent → Bool
  | IconEvent.read_link path => (env.g_file_read_link path).isNone
  | IconEvent.decode full_path _ =>
      match env.decode_file full_path with
      | Except.ok _ => false
      | Except.error _ => true
  | IconEvent.theme_lookup name size flags _ =>
      match env.theme_load_icon name size flags with
      | Except.ok _ => false
      | Except.error _ => true
  | IconEvent.clear_error => false
  | IconEvent.print _ => false

/-- Is every failed decode call in the trace directly followed by `g_clear_error`? -/
def failuresCleared (env : Env) : List IconEvent → Bool
  | [] => true
  | e :: rest =>
      (match e with
        | IconEvent.decode _ _ =>
            !(IconEvent.failed env e) || decide (rest.head? = some IconEvent.clear_error)
        | IconEvent.read_link _ => true
        | IconEvent.clear_error => true
        | IconEvent.print _ => true
        | IconEvent.theme_lookup _ _ _ _ => true) && failuresCleared env rest

/-- The number of failed calls in a trace. -/
def failureCount (env : Env) (trace : List IconEvent) : Nat :=
  (trace.filter (IconEvent.failed env)).length

/-- The reading "every failure produces a log entry": a run of `load_app_icon` writes at
least as many lines as it had failed calls. -/
def LogsEveryFailure (env : Env) : Prop :=
  failureCount env (load_app_icon env).trace ≤ (printed (load_app_icon env).trace).length

/-- A concrete world for evaluation: the executable link reads as `link`, its directory
is `/opt/app`, the listed full paths decode to the paired image, every other path fails,
and the theme has the given icon or none. -/
def sampleEnv (images : List (String × GdkPixbuf)) (theme : Option GdkPixbuf)
    (link : Option String) : Env where
  GDK_WINDOWING_X11 := true
  g_file_read_link := fun _ => link
  g_path_get_dirname := fun _ => "/opt/app"
  g_build_filename := fun dir rel => dir ++ "/" ++ rel
  decode_file := fun path =>
    match images.lookup path with
    | some pixbuf => Except.ok pixbuf
    | none => Except.error { message := "cannot open " ++ path }
  theme_load_icon := fun _ _ _ =>
    match theme with
    | some pixbuf => Except.ok pixbuf
    | none => Except.error { message := "icon not present in theme" }
  screen := { backend := GdkBackend.x11, window_manager_name := some "GNOME Shell" }
  register := Except.ok ()

/-- A world with an image at the second and the fourth candidate only. -/
def secondCandidateEnv : Env :=
  sampleEnv [("/opt/app/data/flutter_assets/assets/images/FreeCadExplorer_Logo.png", ⟨2⟩),
             ("/opt/app/../../../../assets/images/FreeCadExplorer_Logo.png", ⟨4⟩)]
    (some ⟨9⟩) (some "/opt/app/navigator")

/-- A world where the executable path resolves but no icon exists anywhere. -/
def noIconEnv : Env :=
  sampleEnv [] none (some "/opt/app/navigator")

/-- A world where `/proc/self/exe` cannot be read and the theme has the icon. -/
def noLinkEnv : Env :=
  sampleEnv [] (some ⟨9⟩) none

/-- A world on X11 under a window manager that is not GNOME Shell. -/
def otherWmEnv : Env :=
  { noIconEnv with
    screen := { backend := GdkBackend.x11, window_manager_name := some "Other WM" } }

/-! # Theorems -/

/-! ## The candidate loop -/

theorem icon_loop_all_fail (env : Env) (dir : String) (rels : List String)
    (hfail : ∀ rel ∈ rels, ∃ e, env.decode_file (env.g_build_filename dir rel) = Except.error e)
    (st : IconState) (hpix : st.icon_pixbuf = none) (herr : st.error = none) :
    icon_loop env dir rels st =
      { icon_pixbuf := none, error := none,
        trace := st.trace ++ failedAttempts env dir rels } := by
  induction rels generalizing st with
  | nil =>
      cases st
      simp_all [icon_loop, failedAttempts]
  | cons rel rest ih =>
      obtain ⟨e, he⟩ := hfail rel (List.mem_cons_self _ _)
      have hrest : ∀ r ∈ rest, ∃ e, env.decode_file (env.g_build_filename dir r) = Except.error e :=
        fun r hr => hfail r (List.mem_cons_of_mem _ hr)
      simp only [icon_loop, gdk_pixbuf_new_from_file, he]
      rw [ih hrest _ rfl rfl]
      simp [g_clear_error, failedAttempts, herr]

theorem icon_loop_first_success (env : Env) (dir : String) (pre post : List String)
    (rel : String) (pixbuf : GdkPixbuf)
    (hfail : ∀ r ∈ pre, ∃ e, env.decode_file (env.g_build_filename dir r) = Except.error e)
    (hok : env.decode_file (env.g_build_filename dir rel) = Except.ok pixbuf)
    (st : IconState) (herr : st.error = none) :
    icon_loop env dir (pre ++ rel :: post) st =
      { icon_pixbuf := some pixbuf, error := none,
        trace := st.trace ++ failedAttempts env dir pre ++
          [IconEvent.decode (env.g_build_filename dir rel) none,
           IconEvent.print ("Loaded icon from: " ++ env.g_build_filename dir rel ++ "\n")] } := by
  induction pre generalizing st with
  | nil =>
      simp [icon_loop, gdk_pixbuf_new_from_file, hok, g_print, failedAttempts, herr]
  | cons r rest ih =>
      obtain ⟨e, he⟩ := hfail r (List.mem_cons_self _ _)
      have hrest : ∀ x ∈ rest, ∃ e, env.decode_file (env.g_build_filename dir x) = Except.error e :=
        fun x hx => hfail x (List.mem_cons_of_mem _ hx)
      simp only [List.cons_append, icon_loop, gdk_pixbuf_new_from_file, he]
      change icon_loop env dir (rest ++ rel :: post) _ = _
      rw [ih hrest _ rfl]
      simp [g_clear_error, failedAttempts, herr]



theorem decodedPaths_failedAttempts (env : Env) (dir : String) (rels : List String) :
    decodedPaths (failedAttempts env dir rels) = rels.map (env.g_build_filename dir) := by
  induction rels with
  | nil => rfl
  | cons r rest ih =>
      simp only [decodedPaths, failedAttempts, List.flatMap_cons, List.map_cons] at ih ⊢
      simp [IconEvent.decodedPath, ih]

theorem themeQueries_failedAttempts (env : Env) (dir : String) (rels : List String) :
    themeQueries (failedAttempts env dir rels) = [] := by
  induction rels with
  | nil => rfl
  | cons r rest ih =>
      simp only [themeQueries, failedAttempts, List.flatMap_cons] at ih ⊢
      simp [IconEvent.themeQuery, ih]

theorem printed_failedAttempts (env : Env) (dir : String) (rels : List String) :
    printed (failedAttempts env dir rels) = [] := by
  induction rels with
  | nil => rfl
  | cons r rest ih =>
      simp only [printed, failedAttempts, List.flatMap_cons] at ih ⊢
      simp [IconEvent.printedText, ih]

theorem errorsAtCalls_failedAttempts (env : Env) (dir : String) (rels : List String) :
    errorsAtCalls (failedAttempts env dir rels) = rels.map (fun _ => none) := by
  induction rels with
  | nil => rfl
  | cons r rest ih =>
      simp only [errorsAtCalls, failedAttempts, List.flatMap_cons, List.map_cons] at ih ⊢
      simp [IconEvent.errorAtCall, ih]

theorem decodedPaths_append (a b : List IconEvent) :
    decodedPaths (a ++ b) = decodedPaths a ++ decodedPaths b :=
  List.filterMap_append _ _ _

theorem themeQueries_append (a b : List IconEvent) :
    themeQueries (a ++ b) = themeQueries a ++ themeQueries b :=
  List.filterMap_append _ _ _

theorem printed_append (a b : List IconEvent) :
    printed (a ++ b) = printed a ++ printed b :=
  List.filterMap_append _ _ _

theorem errorsAtCalls_append (a b : List IconEvent) :
    errorsAtCalls (a ++ b) = errorsAtCalls a ++ errorsAtCalls b :=
  List.filterMap_append _ _ _

/-- C1: when the executable path resolves to `p` and `i` is the least index whose
candidate `join(dirname(p), icon_paths[i])` decodes, `load_app_icon` returns exactly that
image, the decode calls are exactly the candidates `0..i` in list order (so `i + 1` calls
and none for a later candidate), and the icon theme is not queried. -/
theorem load_app_icon_first_match_wins (env : Env) (p : String) (i : Nat)
    (pixbuf : GdkPixbuf)
    (hlink : env.g_file_read_link "/proc/self/exe" = some p)
    (hi : i < icon_paths.length)
    (hok : env.decode_file (candidatePath env p i) = Except.ok pixbuf)
    (hfail : ∀ j, j < i → ∃ e, env.decode_file (candidatePath env p j) = Except.error e) :
    (load_app_icon env).icon_pixbuf = some pixbuf ∧
    decodedPaths (load_app_icon env).trace =
      (icon_paths.take (i + 1)).map (env.g_build_filename (env.g_path_get_dirname p)) ∧
    (decodedPaths (load_app_icon env).trace).length = i + 1 ∧
    themeQueries (load_app_icon env).trace = [] := by
  have hsplit : icon_paths = icon_paths.take i ++ icon_paths[i] :: icon_paths.drop (i + 1) := by
    rw [← List.drop_eq_getElem_cons hi, List.take_append_drop]
  have hpre : ∀ r ∈ icon_paths.take i, ∃ e,
      env.decode_file (env.g_build_filename (env.g_path_get_dirname p) r) = Except.error e := by
    intro r hr
    obtain ⟨j, hj, rfl⟩ := List.mem_take_iff_getElem.mp hr
    have hji : j < i := (Nat.lt_min.mp hj).1
    have hjl : j < icon_paths.length := (Nat.lt_min.mp hj).2
    have := hfail j hji
    simpa [candidatePath, List.getElem?_eq_getElem hjl] using this
  have hok2 : env.decode_file
      (env.g_build_filename (env.g_path_get_dirname p) icon_paths[i]) = Except.ok pixbuf := by
    simpa [candidatePath, List.getElem?_eq_getElem hi] using hok
  have hloop := icon_loop_first_success env (env.g_path_get_dirname p) (icon_paths.take i)
    (icon_paths.drop (i + 1)) icon_paths[i] pixbuf hpre hok2
    { icon_pixbuf := none, error := none, trace := [IconEvent.read_link "/proc/self/exe"] } rfl
  rw [← hsplit] at hloop
  have htake : icon_paths.take (i + 1) = icon_paths.take i ++ [icon_paths[i]] := by
    rw [List.take_succ, List.getElem?_eq_getElem hi]; rfl
  have hlen : (icon_paths.take i).length = i := by
    rw [List.length_take]; omega
  have hres : load_app_icon env =
      { icon_pixbuf := some pixbuf, error := none,
        trace := [IconEvent.read_link "/proc/self/exe"] ++
          failedAttempts env (env.g_path_get_dirname p) (icon_paths.take i) ++
          [IconEvent.decode (env.g_build_filename (env.g_path_get_dirname p) icon_paths[i]) none,
           IconEvent.print ("Loaded icon from: " ++
             env.g_build_filename (env.g_path_get_dirname p) icon_paths[i] ++ "\n")] } := by
    simp only [load_app_icon, load_app_icon_candidates, hlink, hloop, load_app_icon_theme]
  rw [hres]
  refine ⟨rfl, ?_, ?_, ?_⟩
  · rw [htake]
    simp only [decodedPaths_append, decodedPaths_failedAttempts, List.map_append]
    simp [decodedPaths, IconEvent.decodedPath]
  · simp only [decodedPaths_append, decodedPaths_failedAttempts, List.length_append,
      List.length_map, hlen]
    simp [decodedPaths, IconEvent.decodedPath]
  · simp only [themeQueries_append, themeQueries_failedAttempts]
    simp [themeQueries, IconEvent.themeQuery]

/-- C1 at a concrete input: an image at the second candidate, none at the first. -/
theorem load_app_icon_first_match_wins_witness :
    (∀ j, j < 1 → ∃ e, secondCandidateEnv.decode_file
        (candidatePath secondCandidateEnv "/opt/app/navigator" j) = Except.error e) ∧
    secondCandidateEnv.decode_file (candidatePath secondCandidateEnv "/opt/app/navigator" 1)
      = Except.ok ⟨2⟩ ∧
    (load_app_icon secondCandidateEnv).icon_pixbuf = some ⟨2⟩ ∧
    decodedPaths (load_app_icon secondCandidateEnv).trace =
      ["/opt/app/assets/images/FreeCadExplorer_Logo.png",
       "/opt/app/data/flutter_assets/assets/images/FreeCadExplorer_Logo.png"] ∧
    (decodedPaths (load_app_icon secondCandidateEnv).trace).length = 2 ∧
    themeQueries (load_app_icon secondCandidateEnv).trace = [] := by
  have hfail : ∀ j, j < 1 → ∃ e, secondCandidateEnv.decode_file
      (candidatePath secondCandidateEnv "/opt/app/navigator" j) = Except.error e := by
    intro j hj
    obtain rfl : j = 0 := by omega
    exact ⟨_, rfl⟩
  have hok : secondCandidateEnv.decode_file
      (candidatePath secondCandidateEnv "/opt/app/navigator" 1) = Except.ok ⟨2⟩ := rfl
  exact ⟨hfail, hok,
    load_app_icon_first_match_wins secondCandidateEnv "/opt/app/navigator" 1 ⟨2⟩ rfl
      (by decide) hok hfail⟩

/-! ## The shapes of a run of `load_app_icon` -/

/-- Every pass of the loop either fails on all candidates or stops at a first success. -/
theorem icon_loop_cases (env : Env) (dir : String) (rels : List String) :
    (∀ r ∈ rels, ∃ e, env.decode_file (env.g_build_filename dir r) = Except.error e) ∨
    ∃ pre rel post pixbuf, rels = pre ++ rel :: post ∧
      (∀ r ∈ pre, ∃ e, env.decode_file (env.g_build_filename dir r) = Except.error e) ∧
      env.decode_file (env.g_build_filename dir rel) = Except.ok pixbuf := by
  induction rels with
  | nil => left; simp
  | cons r rest ih =>
      cases hr : env.decode_file (env.g_build_filename dir r) with
      | ok pixbuf => exact Or.inr ⟨[], r, rest, pixbuf, rfl, by simp, hr⟩
      | error e =>
          rcases ih with hall | ⟨pre, rel, post, pixbuf, hsplit, hpre, hok⟩
          · left
            intro x hx
            rcases List.mem_cons.mp hx with rfl | hx
            · exact ⟨e, hr⟩
            · exact hall x hx
          · right
            refine ⟨r :: pre, rel, post, pixbuf, by simp [hsplit], ?_, hok⟩
            intro x hx
            rcases List.mem_cons.mp hx with rfl | hx
            · exact ⟨e, hr⟩
            · exact hpre x hx

/-- The three shapes a run of `load_app_icon` can take. -/
theorem load_app_icon_cases (env : Env) :
    (∃ p pre rel post pixbuf, env.g_file_read_link "/proc/self/exe" = some p ∧
      icon_paths = pre ++ rel :: post ∧
      env.decode_file (env.g_build_filename (env.g_path_get_dirname p) rel) =
        Except.ok pixbuf ∧
      load_app_icon env =
        { icon_pixbuf := some pixbuf, error := none,
          trace := [IconEvent.read_link "/proc/self/exe"] ++
            failedAttempts env (env.g_path_get_dirname p) pre ++
            [IconEvent.decode (env.g_build_filename (env.g_path_get_dirname p) rel) none,
             IconEvent.print ("Loaded icon from: " ++
               env.g_build_filename (env.g_path_get_dirname p) rel ++ "\n")] }) ∨
    (∃ attempts pixbuf,
      (attempts = [] ∨ ∃ p, attempts = failedAttempts env (env.g_path_get_dirname p) icon_paths) ∧
      env.theme_load_icon "freecad_navigator" 48
        GtkIconLookupFlags.GTK_ICON_LOOKUP_USE_BUILTIN = Except.ok pixbuf ∧
      load_app_icon env =
        { icon_pixbuf := some pixbuf, error := none,
          trace := [IconEvent.read_link "/proc/self/exe"] ++ attempts ++
            [IconEvent.theme_lookup "freecad_navigator" 48
               GtkIconLookupFlags.GTK_ICON_LOOKUP_USE_BUILTIN none,
             IconEvent.print "Loaded icon from system theme\n"] }) ∨
    (∃ attempts e,
      (attempts = [] ∨ ∃ p, attempts = failedAttempts env (env.g_path_get_dirname p) icon_paths) ∧
      env.theme_load_icon "freecad_navigator" 48
        GtkIconLookupFlags.GTK_ICON_LOOKUP_USE_BUILTIN = Except.error e ∧
      load_app_icon env =
        { icon_pixbuf := none, error := some e,
          trace := [IconEvent.read_link "/proc/self/exe"] ++ attempts ++
            [IconEvent.theme_lookup "freecad_navigator" 48
               GtkIconLookupFlags.GTK_ICON_LOOKUP_USE_BUILTIN none] }) := by
  have htheme : ∀ attempts : List IconEvent,
      (∃ pixbuf, env.theme_load_icon "freecad_navigator" 48
          GtkIconLookupFlags.GTK_ICON_LOOKUP_USE_BUILTIN = Except.ok pixbuf ∧
        load_app_icon_theme env
          { icon_pixbuf := none, error := none,
            trace := [IconEvent.read_link "/proc/self/exe"] ++ attempts } =
        { icon_pixbuf := some pixbuf, error := none,
          trace := [IconEvent.read_link "/proc/self/exe"] ++ attempts ++
            [IconEvent.theme_lookup "freecad_navigator" 48
               GtkIconLookupFlags.GTK_ICON_LOOKUP_USE_BUILTIN none,
             IconEvent.print "Loaded icon from system theme\n"] }) ∨
      (∃ e, env.theme_load_icon "freecad_navigator" 48
          GtkIconLookupFlags.GTK_ICON_LOOKUP_USE_BUILTIN = Except.error e ∧
        load_app_icon_theme env
          { icon_pixbuf := none, error := none,
            trace := [IconEvent.read_link "/proc/self/exe"] ++ attempts } =
        { icon_pixbuf := none, error := some e,
          trace := [IconEvent.read_link "/proc/self/exe"] ++ attempts ++
            [IconEvent.theme_lookup "freecad_navigator" 48
               GtkIconLookupFlags.GTK_ICON_LOOKUP_USE_BUILTIN none] }) := by
    intro attempts
    cases ht : env.theme_load_icon "freecad_navigator" 48
        GtkIconLookupFlags.GTK_ICON_LOOKUP_USE_BUILTIN with
    | ok pixbuf =>
        left
        exact ⟨pixbuf, rfl,
          by simp [load_app_icon_theme, gtk_icon_theme_load_icon, ht, g_print]⟩
    | error e =>
        right
        exact ⟨e, rfl,
          by simp [load_app_icon_theme, gtk_icon_theme_load_icon, ht, g_set_error]⟩
  cases hlink : env.g_file_read_link "/proc/self/exe" with
  | none =>
      have hc : load_app_icon_candidates env =
          { icon_pixbuf := none, error := none,
            trace := [IconEvent.read_link "/proc/self/exe"] ++ [] } := by
        simp [load_app_icon_candidates, hlink]
      rcases htheme [] with ⟨pixbuf, ht, h⟩ | ⟨e, ht, h⟩
      · exact Or.inr (Or.inl ⟨[], pixbuf, Or.inl rfl, ht, by rw [load_app_icon, hc, h]⟩)
      · exact Or.inr (Or.inr ⟨[], e, Or.inl rfl, ht, by rw [load_app_icon, hc, h]⟩)
  | some p =>
      rcases icon_loop_cases env (env.g_path_get_dirname p) icon_paths with
        hall | ⟨pre, rel, post, pixbuf, hsplit, hpre, hok⟩
      · have hc : load_app_icon_candidates env =
            { icon_pixbuf := none, error := none,
              trace := [IconEvent.read_link "/proc/self/exe"] ++
                failedAttempts env (env.g_path_get_dirname p) icon_paths } := by
          simp only [load_app_icon_candidates, hlink]
          exact icon_loop_all_fail env _ _ hall _ rfl rfl
        rcases htheme (failedAttempts env (env.g_path_get_dirname p) icon_paths) with
          ⟨pixbuf, ht, h⟩ | ⟨e, ht, h⟩
        · exact Or.inr (Or.inl ⟨_, pixbuf, Or.inr ⟨p, rfl⟩, ht, by rw [load_app_icon, hc, h]⟩)
        · exact Or.inr (Or.inr ⟨_, e, Or.inr ⟨p, rfl⟩, ht, by rw [load_app_icon, hc, h]⟩)
      · left
        refine ⟨p, pre, rel, post, pixbuf, rfl, hsplit, hok, ?_⟩
        have hloop := icon_loop_first_success env (env.g_path_get_dirname p) pre post rel pixbuf
          hpre hok
          { icon_pixbuf := none, error := none, trace := [IconEvent.read_link "/proc/self/exe"] }
          rfl
        rw [← hsplit] at hloop
        simp only [load_app_icon, load_app_icon_candidates, hlink, hloop, load_app_icon_theme]

/-- The events of the theme fallback when it is reached with an empty error slot. -/
theorem load_app_icon_theme_from_null (env : Env) (trace : List IconEvent) :
    load_app_icon_theme env { icon_pixbuf := none, error := none, trace := trace } =
      match env.theme_load_icon "freecad_navigator" 48
          GtkIconLookupFlags.GTK_ICON_LOOKUP_USE_BUILTIN with
      | Except.ok pixbuf =>
          { icon_pixbuf := some pixbuf, error := none,
            trace := trace ++
              [IconEvent.theme_lookup "freecad_navigator" 48
                 GtkIconLookupFlags.GTK_ICON_LOOKUP_USE_BUILTIN none,
               IconEvent.print "Loaded icon from system theme\n"] }
      | Except.error e =>
          { icon_pixbuf := none, error := some e,
            trace := trace ++
              [IconEvent.theme_lookup "freecad_navigator" 48
                 GtkIconLookupFlags.GTK_ICON_LOOKUP_USE_BUILTIN none] } := by
  cases ht : env.theme_load_icon "freecad_navigator" 48
      GtkIconLookupFlags.GTK_ICON_LOOKUP_USE_BUILTIN with
  | ok pixbuf => simp [load_app_icon_theme, gtk_icon_theme_load_icon, ht, g_print]
  | error e => simp [load_app_icon_theme, gtk_icon_theme_load_icon, ht, g_set_error]

/-- C2: when the executable path resolves to `p` and none of the four candidates decodes,
`load_app_icon` attempts all four candidates in list order, then queries the icon theme
exactly once for `freecad_navigator` at size 48, and returns what the theme lookup yields
(the image, or null when the lookup fails).  The function is total and its only result is
the nullable image: nothing is raised to the caller. -/
theorem load_app_icon_falls_through_to_theme (env : Env) (p : String)
    (hlink : env.g_file_read_link "/proc/self/exe" = some p)
    (hfail : ∀ i, i < icon_paths.length →
      ∃ e, env.decode_file (candidatePath env p i) = Except.error e) :
    decodedPaths (load_app_icon env).trace =
      icon_paths.map (env.g_build_filename (env.g_path_get_dirname p)) ∧
    (decodedPaths (load_app_icon env).trace).length = 4 ∧
    themeQueries (load_app_icon env).trace = [("freecad_navigator", 48)] ∧
    (load_app_icon env).icon_pixbuf =
      (env.theme_load_icon "freecad_navigator" 48
        GtkIconLookupFlags.GTK_ICON_LOOKUP_USE_BUILTIN).toOption ∧
    (∃ tail, (load_app_icon env).trace =
      [IconEvent.read_link "/proc/self/exe"] ++
        failedAttempts env (env.g_path_get_dirname p) icon_paths ++
        IconEvent.theme_lookup "freecad_navigator" 48
          GtkIconLookupFlags.GTK_ICON_LOOKUP_USE_BUILTIN none :: tail ∧
      decodedPaths tail = [] ∧ themeQueries tail = []) := by
  have hall : ∀ r ∈ icon_paths, ∃ e,
      env.decode_file (env.g_build_filename (env.g_path_get_dirname p) r) = Except.error e := by
    intro r hr
    obtain ⟨i, hi, rfl⟩ := List.getElem_of_mem hr
    simpa [candidatePath, List.getElem?_eq_getElem hi] using hfail i hi
  have hc : load_app_icon_candidates env =
      { icon_pixbuf := none, error := none,
        trace := [IconEvent.read_link "/proc/self/exe"] ++
          failedAttempts env (env.g_path_get_dirname p) icon_paths } := by
    simp only [load_app_icon_candidates, hlink]
    exact icon_loop_all_fail env _ _ hall _ rfl rfl
  rw [load_app_icon, hc, load_app_icon_theme_from_null]
  cases env.theme_load_icon "freecad_navigator" 48
      GtkIconLookupFlags.GTK_ICON_LOOKUP_USE_BUILTIN with
  | ok pixbuf =>
      refine ⟨?_, ?_, ?_, rfl, ⟨[IconEvent.print "Loaded icon from system theme\n"], rfl, rfl, rfl⟩⟩
      · simp only [decodedPaths_append, decodedPaths_failedAttempts]
        simp [decodedPaths, IconEvent.decodedPath]
      · simp only [decodedPaths_append, decodedPaths_failedAttempts]
        simp [decodedPaths, IconEvent.decodedPath, icon_paths]
      · simp only [themeQueries_append, themeQueries_failedAttempts]
        simp [themeQueries, IconEvent.themeQuery]
  | error e =>
      refine ⟨?_, ?_, ?_, rfl, ⟨[], rfl, rfl, rfl⟩⟩
      · simp only [decodedPaths_append, decodedPaths_failedAttempts]
        simp [decodedPaths, IconEvent.decodedPath]
      · simp only [decodedPaths_append, decodedPaths_failedAttempts]
        simp [decodedPaths, IconEvent.decodedPath, icon_paths]
      · simp only [themeQueries_append, themeQueries_failedAttempts]
        simp [themeQueries, IconEvent.themeQuery]

/-- C3: when reading the `/proc/self/exe` link fails, `load_app_icon` decodes no candidate
path; the icon-theme lookup is the first call after the failed read, it is made exactly
once, and its result is returned. -/
theorem load_app_icon_skips_candidates_without_path (env : Env)
    (hlink : env.g_file_read_link "/proc/self/exe" = none) :
    decodedPaths (load_app_icon env).trace = [] ∧
    themeQueries (load_app_icon env).trace = [("freecad_navigator", 48)] ∧
    (load_app_icon env).icon_pixbuf =
      (env.theme_load_icon "freecad_navigator" 48
        GtkIconLookupFlags.GTK_ICON_LOOKUP_USE_BUILTIN).toOption ∧
    (∃ tail, (load_app_icon env).trace =
      IconEvent.read_link "/proc/self/exe" ::
        IconEvent.theme_lookup "freecad_navigator" 48
          GtkIconLookupFlags.GTK_ICON_LOOKUP_USE_BUILTIN none :: tail) := by
  have hc : load_app_icon_candidates env =
      { icon_pixbuf := none, error := none,
        trace := [IconEvent.read_link "/proc/self/exe"] } := by
    simp [load_app_icon_candidates, hlink]
  rw [load_app_icon, hc, load_app_icon_theme_from_null]
  cases env.theme_load_icon "freecad_navigator" 48
      GtkIconLookupFlags.GTK_ICON_LOOKUP_USE_BUILTIN with
  | ok pixbuf =>
      exact ⟨rfl, rfl, rfl, ⟨[IconEvent.print "Loaded icon from system theme\n"], rfl⟩⟩
  | error e => exact ⟨rfl, rfl, rfl, ⟨[], rfl⟩⟩

/-- C10: in every run of `load_app_icon` (whatever the decode outcomes, the theme answer
and whether the executable path resolved) the error slot is null at each call that
receives it, and at least one such call is made. -/
theorem load_app_icon_error_slot_null_at_calls (env : Env) :
    (∀ e ∈ errorsAtCalls (load_app_icon env).trace, e = none) ∧
    errorsAtCalls (load_app_icon env).trace ≠ [] := by
  rcases load_app_icon_cases env with
    ⟨p, pre, rel, post, pixbuf, _, _, _, h⟩ | ⟨attempts, pixbuf, hat, _, h⟩ |
    ⟨attempts, e, hat, _, h⟩
  · rw [h]
    simp only [errorsAtCalls_append, errorsAtCalls_failedAttempts]
    simp only [errorsAtCalls, IconEvent.errorAtCall, List.filterMap_cons, List.filterMap_nil]
    refine ⟨?_, by simp⟩
    intro e he
    simp only [List.nil_append, List.mem_append, List.mem_map, List.mem_singleton] at he
    rcases he with ⟨_, _, he⟩ | he
    · exact he.symm
    · exact he
  · rw [h]
    rcases hat with rfl | ⟨p, rfl⟩
    · simp [errorsAtCalls, IconEvent.errorAtCall]
    · simp only [errorsAtCalls_append, errorsAtCalls_failedAttempts]
      simp only [errorsAtCalls, IconEvent.errorAtCall, List.filterMap_cons, List.filterMap_nil]
      refine ⟨?_, by simp⟩
      intro e he
      simp only [List.nil_append, List.mem_append, List.mem_map, List.mem_singleton] at he
      rcases he with ⟨_, _, he⟩ | he
      · exact he.symm
      · exact he
  · rw [h]
    rcases hat with rfl | ⟨p, rfl⟩
    · simp [errorsAtCalls, IconEvent.errorAtCall]
    · simp only [errorsAtCalls_append, errorsAtCalls_failedAttempts]
      simp only [errorsAtCalls, IconEvent.errorAtCall, List.filterMap_cons, List.filterMap_nil]
      refine ⟨?_, by simp⟩
      intro e he
      simp only [List.nil_append, List.mem_append, List.mem_map, List.mem_singleton] at he
      rcases he with ⟨_, _, he⟩ | he
      · exact he.symm
      · exact he

/-- C2 at a concrete input: no icon file next to the executable and none in the theme. -/
theorem load_app_icon_falls_through_to_theme_witness :
    noIconEnv.g_file_read_link "/proc/self/exe" = some "/opt/app/navigator" ∧
    (∀ i, i < icon_paths.length → ∃ e, noIconEnv.decode_file
        (candidatePath noIconEnv "/opt/app/navigator" i) = Except.error e) ∧
    (decodedPaths (load_app_icon noIconEnv).trace).length = 4 ∧
    themeQueries (load_app_icon noIconEnv).trace = [("freecad_navigator", 48)] ∧
    (load_app_icon noIconEnv).icon_pixbuf = none := by
  have hfail : ∀ i, i < icon_paths.length → ∃ e, noIconEnv.decode_file
      (candidatePath noIconEnv "/opt/app/navigator" i) = Except.error e :=
    fun _ _ => ⟨_, rfl⟩
  have h := load_app_icon_falls_through_to_theme noIconEnv "/opt/app/navigator" rfl hfail
  exact ⟨rfl, hfail, h.2.1, h.2.2.1, h.2.2.2.1⟩

/-- C3 at a concrete input: the link cannot be read and the theme has the icon. -/
theorem load_app_icon_skips_candidates_without_path_witness :
    noLinkEnv.g_file_read_link "/proc/self/exe" = none ∧
    decodedPaths (load_app_icon noLinkEnv).trace = [] ∧
    themeQueries (load_app_icon noLinkEnv).trace = [("freecad_navigator", 48)] ∧
    (load_app_icon noLinkEnv).icon_pixbuf = some ⟨9⟩ := by
  have h := load_app_icon_skips_candidates_without_path noLinkEnv rfl
  exact ⟨rfl, h.1, h.2.1, h.2.2.1⟩

/-! ## Window assembly -/

theorem strcmp_eq_zero_iff (a b : List Char) : strcmp a b = 0 ↔ a = b := by
  induction a generalizing b with
  | nil => cases b <;> simp [strcmp]
  | cons x xs ih =>
      cases b with
      | nil => simp [strcmp]
      | cons y ys =>
          by_cases hxy : x = y
          · simp [strcmp, hxy, ih]
          · by_cases hlt : x < y <;> simp [strcmp, hxy, hlt]

theorem g_strcmp0_eq_zero_iff (str1 str2 : Option String) :
    g_strcmp0 str1 str2 = 0 ↔ str1 = str2 := by
  cases str1 <;> cases str2 <;> simp [g_strcmp0, strcmp_eq_zero_iff, String.ext_iff]

/-- The window list after an activation: the old windows followed by the new one. -/
theorem my_application_activate_windows (env : Env) (self : MyApplication) (s : GtkState) :
    (my_application_activate env self s).windows = s.windows ++
      [{ visible := false
         realized := true
         icon_name := some "freecad_navigator"
         icon := (load_app_icon env).icon_pixbuf
         titlebar :=
           if use_header_bar env then
             some { visible := true, title := some "FreeCAD Navigator", show_close_button := true }
           else none
         title := if use_header_bar env then none else some "FreeCAD Navigator"
         default_size := some (1280, 720)
         child := some
           { handle := s.windows.length
             project := { dart_entrypoint_arguments := self.dart_entrypoint_arguments }
             background_color := some "#000000"
             visible := true
             realized := true
             first_frame_handler := true
             plugins_registered := true
             has_focus := true } }] := by
  cases hicon : (load_app_icon env).icon_pixbuf <;> cases hbar : use_header_bar env <;>
    simp [my_application_activate, apply_app_icon, apply_chrome, embed_view, hicon, hbar,
      gtk_application_window_new, g_set_application_name, gtk_window_set_icon_name,
      gtk_window_set_icon, gtk_window_set_default_icon, gtk_window_set_default_icon_list,
      g_list_append, GtkState.g_print, gtk_header_bar_new, GtkHeaderBar.gtk_widget_show,
      gtk_header_bar_set_title, gtk_header_bar_set_show_close_button, gtk_window_set_titlebar,
      gtk_window_set_title, gtk_window_set_default_size, fl_dart_project_new,
      fl_dart_project_set_dart_entrypoint_arguments, fl_view_new, fl_view_set_background_color,
      FlView.gtk_widget_show, gtk_container_add, GtkWindow.onChild,
      g_signal_connect_first_frame, gtk_widget_realize, fl_register_plugins,
      gtk_widget_grab_focus]

/-- The process-wide fields after an activation. -/
theorem my_application_activate_globals (env : Env) (self : MyApplication) (s : GtkState) :
    (my_application_activate env self s).application_name = some "FreeCAD Navigator" ∧
    (my_application_activate env self s).default_icon_list =
      (match (load_app_icon env).icon_pixbuf with
       | some icon_pixbuf => [icon_pixbuf]
       | none => s.default_icon_list) ∧
    (my_application_activate env self s).stdout =
      s.stdout ++ printed (load_app_icon env).trace ++
        [match (load_app_icon env).icon_pixbuf with
         | some _ => "Window icon set successfully\n"
         | none => "Failed to load window icon\n"] := by
  cases hicon : (load_app_icon env).icon_pixbuf <;>
    simp [my_application_activate, apply_app_icon, hicon, g_set_application_name,
      gtk_window_set_default_icon, gtk_window_set_default_icon_list, g_list_append,
      GtkState.g_print]

/-- C4: the chrome decision depends on the backend and the window-manager name only.
In a build whose GDK has the X11 backend whenever the screen is an X11 screen, the
traditional title bar is chosen if and only if the screen is an X11 screen and the
window-manager name is not exactly `GNOME Shell` (null counts as different); the window
assembled by `my_application_activate` carries exactly that style. -/
theorem chrome_decision (env : Env) (self : MyApplication) (s : GtkState)
    (hbuild : env.screen.backend = GdkBackend.x11 → env.GDK_WINDOWING_X11 = true) :
    (use_header_bar env = false ↔
      (env.screen.backend = GdkBackend.x11 ∧
        env.screen.window_manager_name ≠ some "GNOME Shell")) ∧
    (env.screen.backend = GdkBackend.x11 →
      env.screen.window_manager_name = some "GNOME Shell" → use_header_bar env = true) ∧
    (env.screen.backend = GdkBackend.x11 →
      env.screen.window_manager_name = some "Other WM" → use_header_bar env = false) ∧
    (env.screen.backend = GdkBackend.x11 →
      env.screen.window_manager_name = none → use_header_bar env = false) ∧
    (env.screen.backend ≠ GdkBackend.x11 → use_header_bar env = true) ∧
    (∃ window, (my_application_activate env self s).windows[s.windows.length]? = some window ∧
      (window.chromeStyle = ChromeStyle.traditional_title_bar ↔
        (env.screen.backend = GdkBackend.x11 ∧
          env.screen.window_manager_name ≠ some "GNOME Shell")) ∧
      (window.chromeStyle = ChromeStyle.header_bar ↔
        ¬ (env.screen.backend = GdkBackend.x11 ∧
          env.screen.window_manager_name ≠ some "GNOME Shell"))) := by
  have hiff : use_header_bar env = false ↔
      (env.screen.backend = GdkBackend.x11 ∧
        env.screen.window_manager_name ≠ some "GNOME Shell") := by
    by_cases hx : env.screen.backend = GdkBackend.x11
    · have hb := hbuild hx
      simp [use_header_bar, GDK_IS_X11_SCREEN, gdk_x11_screen_get_window_manager_name, hb, hx,
        g_strcmp0_eq_zero_iff]
    · cases hb : env.GDK_WINDOWING_X11 <;>
        simp [use_header_bar, GDK_IS_X11_SCREEN, hb, hx]
  refine ⟨hiff, ?_, ?_, ?_, ?_, ?_⟩
  · intro hx hwm
    cases h : use_header_bar env
    · exact absurd hwm (hiff.mp h).2
    · rfl
  · intro hx hwm
    exact hiff.mpr ⟨hx, by rw [hwm]; decide⟩
  · intro hx hwm
    exact hiff.mpr ⟨hx, by rw [hwm]; simp⟩
  · intro hx
    cases h : use_header_bar env
    · exact absurd (hiff.mp h).1 hx
    · rfl
  · rw [my_application_activate_windows]
    refine ⟨_, List.getElem?_concat_length _ _, ?_, ?_⟩
    · rw [← hiff]
      cases use_header_bar env <;> simp [GtkWindow.chromeStyle]
    · rw [← hiff]
      cases use_header_bar env <;> simp [GtkWindow.chromeStyle]

/-- C4 at a concrete input: X11 under `Other WM` gets the traditional title bar. -/
theorem chrome_decision_witness :
    (otherWmEnv.screen.backend = GdkBackend.x11 → otherWmEnv.GDK_WINDOWING_X11 = true) ∧
    use_header_bar otherWmEnv = false ∧
    use_header_bar noIconEnv = true :=
  ⟨fun _ => rfl,
   (chrome_decision otherWmEnv ⟨none⟩ GtkState.initial (fun _ => rfl)).2.2.1 rfl rfl,
   (chrome_decision noIconEnv ⟨none⟩ GtkState.initial (fun _ => rfl)).2.1 rfl rfl⟩

/-- C5: for every non-empty argument list `args`, `my_application_local_command_line`
returns and leaves in `dart_entrypoint_arguments` the list `args` without its element 0
(same elements, same order, one element fewer); every later `my_application_activate` on
that instance hands exactly this list to the project of the view it creates, and so does
the activation performed by the command-line handler itself when registration succeeds. -/
theorem entrypoint_arguments_forwarded (env : Env) (self : MyApplication) (s : GtkState)
    (args : List String) (hne : args ≠ []) :
    ∃ r, my_application_local_command_line env self s args = some r ∧
      r.self.dart_entrypoint_arguments = some (args.drop 1) ∧
      (∃ argv0, args = argv0 :: args.drop 1) ∧
      (args.drop 1).length = args.length - 1 ∧
      (∀ i, (args.drop 1)[i]? = args[i + 1]?) ∧
      (∀ (env2 : Env) (s2 : GtkState), ∃ window view,
        (my_application_activate env2 r.self s2).windows[s2.windows.length]? = some window ∧
        window.child = some view ∧
        view.project.dart_entrypoint_arguments = some (args.drop 1)) ∧
      (env.register = Except.ok () → ∃ window view,
        r.gtk.windows[s.windows.length]? = some window ∧
        window.child = some view ∧
        view.project.dart_entrypoint_arguments = some (args.drop 1)) := by
  cases args with
  | nil => exact absurd rfl hne
  | cons argv0 rest =>
      have hact : ∀ (env2 : Env) (s2 : GtkState), ∃ window view,
          (my_application_activate env2 { dart_entrypoint_arguments := some rest } s2).windows[
            s2.windows.length]? = some window ∧
          window.child = some view ∧
          view.project.dart_entrypoint_arguments = some rest := by
        intro env2 s2
        rw [my_application_activate_windows]
        exact ⟨_, _, List.getElem?_concat_length _ _, rfl, rfl⟩
      cases hreg : env.register with
      | error e =>
          have hres : my_application_local_command_line env self s (argv0 :: rest) =
                some { self := { dart_entrypoint_arguments := some rest }, gtk := s,
                       warnings := ["Failed to register: " ++ e.message],
                       exit_status := 1, handled := true } := by
            simp only [my_application_local_command_line, hreg, g_strdupv, g_application_activate]
          refine ⟨_, hres, ?_⟩
          refine ⟨rfl, ⟨argv0, rfl⟩, by simp, fun i => by simp, ?_, ?_⟩
          · exact hact
          · intro h; cases h
      | ok u =>
          have hres : my_application_local_command_line env self s (argv0 :: rest) =
                some { self := { dart_entrypoint_arguments := some rest },
                       gtk := my_application_activate env { dart_entrypoint_arguments := some rest } s,
                       warnings := [], exit_status := 0, handled := true } := by
            simp only [my_application_local_command_line, hreg, g_strdupv, g_application_activate]
          refine ⟨_, hres, ?_⟩
          refine ⟨rfl, ⟨argv0, rfl⟩, by simp, fun i => by simp, ?_, ?_⟩
          · exact hact
          · intro _
            exact hact env s

/-- C5 at a concrete input: the arguments `navigator --open part.FCStd`. -/
theorem entrypoint_arguments_forwarded_witness :
    ["navigator", "--open", "part.FCStd"] ≠ [] ∧
    ∃ r, my_application_local_command_line noIconEnv ⟨none⟩ GtkState.initial
        ["navigator", "--open", "part.FCStd"] = some r ∧
      r.self.dart_entrypoint_arguments = some ["--open", "part.FCStd"] := by
  refine ⟨by simp, ?_⟩
  obtain ⟨r, hr, hargs, _⟩ := entrypoint_arguments_forwarded noIconEnv ⟨none⟩ GtkState.initial
    ["navigator", "--open", "part.FCStd"] (by simp)
  exact ⟨r, hr, hargs⟩

/-- C6: on every non-empty argument vector `my_application_local_command_line` returns
TRUE; the exit status is 1 and no window is created (the toolkit state is untouched)
if and only if registration fails; when registration succeeds the application is
activated (one more window) and the exit status is 0. -/
theorem local_command_line_exit_status (env : Env) (self : MyApplication) (s : GtkState)
    (argv0 : String) (rest : List String) :
    ∃ r, my_application_local_command_line env self s (argv0 :: rest) = some r ∧
      r.handled = true ∧
      (r.exit_status = 1 ↔ ∃ e, env.register = Except.error e) ∧
      (r.gtk.windows = s.windows ↔ ∃ e, env.register = Except.error e) ∧
      ((∃ e, env.register = Except.error e) → r.gtk = s ∧ r.exit_status = 1) ∧
      (∀ e, env.register = Except.error e →
        r.warnings = ["Failed to register: " ++ e.message]) ∧
      (env.register = Except.ok () →
        r.gtk = my_application_activate env r.self s ∧
        r.gtk.windows.length = s.windows.length + 1 ∧
        r.exit_status = 0 ∧ r.warnings = []) := by
  cases hreg : env.register with
  | error e =>
      have hres : my_application_local_command_line env self s (argv0 :: rest) =
            some { self := { dart_entrypoint_arguments := some rest }, gtk := s,
                   warnings := ["Failed to register: " ++ e.message],
                   exit_status := 1, handled := true } := by
        simp only [my_application_local_command_line, hreg, g_strdupv, g_application_activate]
      refine ⟨_, hres, rfl, ?_, ?_, ?_, ?_, ?_⟩
      · exact ⟨fun _ => ⟨e, rfl⟩, fun _ => rfl⟩
      · exact ⟨fun _ => ⟨e, rfl⟩, fun _ => rfl⟩
      · exact fun _ => ⟨rfl, rfl⟩
      · intro e2 h
        cases h
        rfl
      · intro h; cases h
  | ok u =>
      have hres : my_application_local_command_line env self s (argv0 :: rest) =
            some { self := { dart_entrypoint_arguments := some rest },
                   gtk := my_application_activate env { dart_entrypoint_arguments := some rest } s,
                   warnings := [], exit_status := 0, handled := true } := by
        simp only [my_application_local_command_line, hreg, g_strdupv, g_application_activate]
      refine ⟨_, hres, rfl, ?_, ?_, ?_, ?_, ?_⟩
      · constructor
        · intro h
          have h0 : (0 : Int) = 1 := h
          omega
        · rintro ⟨e, h⟩
          cases h
      · constructor
        · intro h
          have hlen := congrArg List.length h
          simp only [g_application_activate, my_application_activate_windows,
            List.length_append, List.length_singleton] at hlen
          omega
        · rintro ⟨e, h⟩
          cases h
      · rintro ⟨e, h⟩
        cases h
      · intro e h
        cases h
      · intro _
        refine ⟨rfl, ?_, rfl, rfl⟩
        simp only [g_application_activate, my_application_activate_windows,
          List.length_append, List.length_singleton]

/-- C8: `my_application_activate` always sets the icon name `freecad_navigator` on the new
window.  When `load_app_icon` returns an image, that image is the icon of the window and
the one element of the process-wide default icon list.  When it returns null, the window
has no icon image, the default icon list is what it was before, and assembly still runs
to completion (size, embedded view realized, plugins registered, focus grabbed). -/
theorem window_icon_applied (env : Env) (self : MyApplication) (s : GtkState) :
    ∃ window, (my_application_activate env self s).windows[s.windows.length]? = some window ∧
      window.icon_name = some "freecad_navigator" ∧
      (∀ icon_pixbuf, (load_app_icon env).icon_pixbuf = some icon_pixbuf →
        window.icon = some icon_pixbuf ∧
        (my_application_activate env self s).default_icon_list = [icon_pixbuf]) ∧
      ((load_app_icon env).icon_pixbuf = none →
        window.icon = none ∧
        (my_application_activate env self s).default_icon_list = s.default_icon_list) ∧
      window.default_size = some (1280, 720) ∧
      (∃ view, window.child = some view ∧ view.realized = true ∧
        view.first_frame_handler = true ∧ view.plugins_registered = true ∧
        view.has_focus = true) := by
  have hg := (my_application_activate_globals env self s).2.1
  rw [my_application_activate_windows]
  refine ⟨_, List.getElem?_concat_length _ _, rfl, ?_, ?_, rfl, ⟨_, rfl, rfl, rfl, rfl, rfl⟩⟩
  · intro icon_pixbuf hicon
    rw [hicon] at hg
    exact ⟨hicon, hg⟩
  · intro hicon
    rw [hicon] at hg
    exact ⟨hicon, hg⟩

/-! ## Output of the icon resolver -/

theorem failuresCleared_failedAttempts (env : Env) (dir : String) (rels : List String)
    (tail : List IconEvent) :
    failuresCleared env (failedAttempts env dir rels ++ tail) = failuresCleared env tail := by
  induction rels with
  | nil => rfl
  | cons r rest ih =>
      simp only [failedAttempts, List.flatMap_cons, List.append_assoc, List.cons_append,
        List.nil_append] at ih ⊢
      simp [failuresCleared, ih]

theorem failuresCleared_read_link (env : Env) (path : String) (rest : List IconEvent) :
    failuresCleared env (IconEvent.read_link path :: rest) = failuresCleared env rest := by
  simp [failuresCleared]

/-- C9, as stated, fails: with the executable path resolved, no candidate decodable and
no theme icon, the run has five failed calls and `load_app_icon` writes nothing. -/
theorem load_app_icon_failures_not_logged :
    failureCount noIconEnv (load_app_icon noIconEnv).trace = 5 ∧
    printed (load_app_icon noIconEnv).trace = [] ∧
    ¬ LogsEveryFailure noIconEnv := by
  have h1 : failureCount noIconEnv (load_app_icon noIconEnv).trace = 5 := by rfl
  have h2 : printed (load_app_icon noIconEnv).trace = [] := by rfl
  refine ⟨h1, h2, ?_⟩
  unfold LogsEveryFailure
  rw [h1, h2]
  decide

/-- C9, amended: `load_app_icon` writes no line for a failure.  When it returns null it
has written nothing.  When it returns an image it has written exactly one line, and that
line names the source the image came from: either the image is the decoding of the last
path handed to `gdk_pixbuf_new_from_file`, the theme was not queried and the line is
`Loaded icon from: ` followed by that path, or the image is the answer of the one theme
query and the line is `Loaded icon from system theme`.  A failed decode is directly
followed by `g_clear_error`.  The one failure report is the line the caller
`my_application_activate` prints when the result is null. -/
theorem load_app_icon_output_is_success_only (env : Env) (self : MyApplication)
    (s : GtkState) :
    ((load_app_icon env).icon_pixbuf = none → printed (load_app_icon env).trace = []) ∧
    (∀ icon_pixbuf, (load_app_icon env).icon_pixbuf = some icon_pixbuf →
      (∃ path, (decodedPaths (load_app_icon env).trace).getLast? = some path ∧
        env.decode_file path = Except.ok icon_pixbuf ∧
        themeQueries (load_app_icon env).trace = [] ∧
        printed (load_app_icon env).trace = ["Loaded icon from: " ++ path ++ "\n"]) ∨
      (env.theme_load_icon "freecad_navigator" 48
          GtkIconLookupFlags.GTK_ICON_LOOKUP_USE_BUILTIN = Except.ok icon_pixbuf ∧
        themeQueries (load_app_icon env).trace = [("freecad_navigator", 48)] ∧
        printed (load_app_icon env).trace = ["Loaded icon from system theme\n"])) ∧
    failuresCleared env (load_app_icon env).trace = true ∧
    (my_application_activate env self s).stdout =
      s.stdout ++ printed (load_app_icon env).trace ++
        [match (load_app_icon env).icon_pixbuf with
         | some _ => "Window icon set successfully\n"
         | none => "Failed to load window icon\n"] := by
  refine ⟨?_, ?_, ?_, (my_application_activate_globals env self s).2.2⟩
  · intro hnone
    rcases load_app_icon_cases env with
      ⟨p, pre, rel, post, pixbuf, _, _, _, h⟩ | ⟨attempts, pixbuf, hat, _, h⟩ |
      ⟨attempts, e, hat, _, h⟩
    · rw [h] at hnone; cases hnone
    · rw [h] at hnone; cases hnone
    · rw [h]
      rcases hat with rfl | ⟨p, rfl⟩
      · rfl
      · simp only [printed_append, printed_failedAttempts]
        rfl
  · intro icon_pixbuf hsome
    rcases load_app_icon_cases env with
      ⟨p, pre, rel, post, pixbuf, _, _, hok, h⟩ | ⟨attempts, pixbuf, hat, ht, h⟩ |
      ⟨attempts, e, hat, _, h⟩
    · left
      rw [h] at hsome ⊢
      have hpix : pixbuf = icon_pixbuf := Option.some.inj hsome
      subst hpix
      refine ⟨env.g_build_filename (env.g_path_get_dirname p) rel, ?_, hok, ?_, ?_⟩
      · simp only [decodedPaths_append, decodedPaths_failedAttempts]
        simp [decodedPaths, IconEvent.decodedPath]
      · simp only [themeQueries_append, themeQueries_failedAttempts]
        rfl
      · simp only [printed_append, printed_failedAttempts]
        rfl
    · right
      rw [h] at hsome ⊢
      have hpix : pixbuf = icon_pixbuf := Option.some.inj hsome
      subst hpix
      refine ⟨ht, ?_, ?_⟩
      · rcases hat with rfl | ⟨p, rfl⟩
        · rfl
        · simp only [themeQueries_append, themeQueries_failedAttempts]
          rfl
      · rcases hat with rfl | ⟨p, rfl⟩
        · rfl
        · simp only [printed_append, printed_failedAttempts]
          rfl
    · rw [h] at hsome; cases hsome
  · rcases load_app_icon_cases env with
      ⟨p, pre, rel, post, pixbuf, _, _, hok, h⟩ | ⟨attempts, pixbuf, hat, _, h⟩ |
      ⟨attempts, e, hat, _, h⟩
    · rw [h]
      simp only [List.append_assoc, List.singleton_append, List.cons_append, List.nil_append]
      rw [failuresCleared_read_link, failuresCleared_failedAttempts]
      simp [failuresCleared, IconEvent.failed, hok]
    · rw [h]
      rcases hat with rfl | ⟨p, rfl⟩
      · rfl
      · simp only [List.append_assoc, List.singleton_append, List.cons_append,
          List.nil_append]
        rw [failuresCleared_read_link, failuresCleared_failedAttempts]
        rfl
    · rw [h]
      rcases hat with rfl | ⟨p, rfl⟩
      · rfl
      · simp only [List.append_assoc, List.singleton_append, List.cons_append,
          List.nil_append]
        rw [failuresCleared_read_link, failuresCleared_failedAttempts]
        rfl

/-! ## Lifecycle -/

theorem handlesMatch_activate (env : Env) (self : MyApplication) (s : GtkState)
    (h : HandlesMatch s) : HandlesMatch (my_application_activate env self s) := by
  intro w window hw
  rw [my_application_activate_windows] at hw
  rcases Nat.lt_trichotomy w s.windows.length with hlt | heq | hgt
  · rw [List.getElem?_append_left hlt] at hw
    exact h w window hw
  · subst heq
    rw [List.getElem?_concat_length] at hw
    cases hw
    exact ⟨_, rfl, rfl⟩
  · rw [List.getElem?_eq_none (by simp; omega)] at hw
    cases hw

theorem windowVisible_activate (env : Env) (self : MyApplication) (s : GtkState) (w : Nat) :
    (my_application_activate env self s).windowVisible w = s.windowVisible w := by
  unfold GtkState.windowVisible
  rw [my_application_activate_windows]
  rcases Nat.lt_trichotomy w s.windows.length with hlt | heq | hgt
  · rw [List.getElem?_append_left hlt]
  · subst heq
    rw [List.getElem?_concat_length, List.getElem?_eq_none (Nat.le_refl _)]
  · rw [List.getElem?_eq_none (by simp; omega), List.getElem?_eq_none (by omega)]

theorem firstFrameEnabled_lt (s : GtkState) (h : HandlesMatch s) (view : Nat)
    (hen : firstFrameEnabled s view = true) : view < s.windows.length := by
  unfold firstFrameEnabled at hen
  obtain ⟨window, hmem, hp⟩ := List.any_eq_true.mp hen
  obtain ⟨i, hi⟩ := List.mem_iff_getElem?.mp hmem
  obtain ⟨v, hchild, hhandle⟩ := h i window hi
  rw [hchild] at hp
  simp at hp
  have hlt : i < s.windows.length := by
    by_contra hcon
    rw [List.getElem?_eq_none (by omega)] at hi
    cases hi
  omega

theorem gtk_widget_get_toplevel_eq (s : GtkState) (h : HandlesMatch s) (view : Nat)
    (hlt : view < s.windows.length) : gtk_widget_get_toplevel s view = some view := by
  unfold gtk_widget_get_toplevel
  rw [List.findIdx?_eq_some_iff_getElem]
  refine ⟨hlt, ?_, ?_⟩
  · obtain ⟨v, hchild, hhandle⟩ := h view s.windows[view] (List.getElem?_eq_getElem hlt)
    simp [hchild, hhandle]
  · intro j hj
    obtain ⟨v, hchild, hhandle⟩ :=
      h j s.windows[j] (List.getElem?_eq_getElem (Nat.lt_trans hj hlt))
    simp [hchild, hhandle]
    omega

theorem first_frame_cb_windows (self : MyApplication) (s : GtkState) (h : HandlesMatch s)
    (view : Nat) (hen : firstFrameEnabled s view = true) :
    (first_frame_cb self s view).windows =
      s.windows.modify (fun window => { window with visible := true }) view := by
  unfold first_frame_cb
  rw [gtk_widget_get_toplevel_eq s h view (firstFrameEnabled_lt s h view hen)]
  rfl

theorem handlesMatch_first_frame (self : MyApplication) (s : GtkState) (h : HandlesMatch s)
    (view : Nat) (hen : firstFrameEnabled s view = true) :
    HandlesMatch (first_frame_cb self s view) := by
  intro w window hw
  rw [first_frame_cb_windows self s h view hen, List.getElem?_modify] at hw
  cases hold : s.windows[w]? with
  | none => rw [hold] at hw; cases hw
  | some old =>
      rw [hold] at hw
      obtain ⟨v, hchild, hhandle⟩ := h w old hold
      simp only [Option.map_eq_map, Option.map_some, Option.some.injEq] at hw
      subst hw
      by_cases hvw : view = w <;> simp [hvw, hchild, hhandle]

theorem windowVisible_first_frame (self : MyApplication) (s : GtkState) (h : HandlesMatch s)
    (view : Nat) (hen : firstFrameEnabled s view = true) (w : Nat) :
    (first_frame_cb self s view).windowVisible w =
      if w = view then true else s.windowVisible w := by
  have hlt := firstFrameEnabled_lt s h view hen
  unfold GtkState.windowVisible
  rw [first_frame_cb_windows self s h view hen, List.getElem?_modify]
  by_cases hvw : w = view
  · subst hvw
    simp [List.getElem?_eq_getElem hlt]
  · have hne : ¬ view = w := fun hc => hvw hc.symm
    cases hold : s.windows[w]? <;> simp [hvw, hne]

theorem handlesMatch_step (self : MyApplication) (s t : GtkState) (e : LifecycleEvent)
    (hstep : Step self s e t) (h : HandlesMatch s) : HandlesMatch t := by
  cases hstep with
  | activate env => exact handlesMatch_activate env self s h
  | first_frame _ view hen => exact handlesMatch_first_frame self s h view hen

/-- What a run from the initial state maintains: handles match window indices, and a
window is shown exactly when the `first-frame` signal of its view has been dispatched. -/
theorem run_invariant (self : MyApplication) (evs : List LifecycleEvent) (s : GtkState)
    (hrun : Run self GtkState.initial evs s) :
    HandlesMatch s ∧ ∀ w, s.windowVisible w = true ↔ firstFrameFired evs w := by
  induction hrun with
  | nil =>
      refine ⟨?_, ?_⟩
      · intro w window hw
        simp [GtkState.initial] at hw
      · intro w
        simp [GtkState.windowVisible, GtkState.initial, firstFrameFired]
  | snoc t u evs e _ hstep ih =>
      obtain ⟨hA, hB⟩ := ih
      refine ⟨handlesMatch_step self t u e hstep hA, ?_⟩
      intro w
      cases hstep with
      | activate env =>
          rw [windowVisible_activate, hB w]
          simp [firstFrameFired]
      | first_frame _ view hen =>
          rw [windowVisible_first_frame self t hA view hen w]
          by_cases hvw : w = view
          · simp [hvw, firstFrameFired]
          · simp only [hvw, if_false, hB w, firstFrameFired, List.mem_append,
              List.mem_singleton, LifecycleEvent.first_frame.injEq, or_false]

/-- C7: in every state reached from the initial state by activations and first-frame
signals, a top-level window is shown if and only if the `first-frame` signal of its view
has been dispatched (so it is hidden before, visible after, and stays visible).
`my_application_activate` shows the header bar and the view but leaves the new window
hidden and the other windows as they were; a step that turns a hidden window visible is
the first-frame signal of that window; no step hides a visible window. -/
theorem window_hidden_until_first_frame (self : MyApplication) (evs : List LifecycleEvent)
    (s : GtkState) (hrun : Run self GtkState.initial evs s) :
    (∀ w, s.windowVisible w = true → firstFrameFired evs w) ∧
    (∀ w, firstFrameFired evs w → s.windowVisible w = true) ∧
    (∀ (w : Nat) (window : GtkWindow), s.windows[w]? = some window →
      ∃ view : FlView, window.child = some view ∧ view.handle = w) ∧
    (∀ env : Env, ∃ (window : GtkWindow) (view : FlView),
      (my_application_activate env self s).windows = s.windows ++ [window] ∧
      window.visible = false ∧ window.child = some view ∧ view.visible = true ∧
      view.handle = s.windows.length ∧
      (∀ bar : GtkHeaderBar, window.titlebar = some bar → bar.visible = true)) ∧
    (∀ (e : LifecycleEvent) (t : GtkState), Step self s e t →
      ∀ w, s.windowVisible w = false → t.windowVisible w = true →
        e = LifecycleEvent.first_frame w) ∧
    (∀ (e : LifecycleEvent) (t : GtkState), Step self s e t →
      ∀ w, s.windowVisible w = true → t.windowVisible w = true) ∧
    (∀ (view : Nat) (t : GtkState), Step self s (LifecycleEvent.first_frame view) t →
      t.windowVisible view = true) := by
  obtain ⟨hA, hB⟩ := run_invariant self evs s hrun
  refine ⟨fun w => (hB w).mp, fun w => (hB w).mpr, hA, ?_, ?_, ?_, ?_⟩
  · intro env
    refine ⟨_, _, my_application_activate_windows env self s, rfl, rfl, rfl, rfl, ?_⟩
    intro bar hbar
    cases hu : use_header_bar env
    · simp [hu] at hbar
    · simp [hu] at hbar
      rw [← hbar]
  · intro e t hstep w hhid hvis
    cases hstep with
    | activate env =>
        rw [windowVisible_activate, hhid] at hvis
        cases hvis
    | first_frame _ view hen =>
        rw [windowVisible_first_frame self s hA view hen w] at hvis
        by_cases hvw : w = view
        · rw [hvw]
        · rw [if_neg hvw, hhid] at hvis
          cases hvis
  · intro e t hstep w hvis
    cases hstep with
    | activate env => rw [windowVisible_activate, hvis]
    | first_frame _ view hen =>
        rw [windowVisible_first_frame self s hA view hen w]
        by_cases hvw : w = view
        · rw [if_pos hvw]
        · rw [if_neg hvw, hvis]
  · intro view t hstep
    cases hstep with
    | first_frame _ _ hen =>
        rw [windowVisible_first_frame self s hA view hen view, if_pos rfl]

/-- C7 at a concrete input: one activation, then the first frame of the new view. -/
theorem window_hidden_until_first_frame_witness :
    Run ⟨none⟩ GtkState.initial
      [LifecycleEvent.activate noIconEnv, LifecycleEvent.first_frame 0]
      (first_frame_cb ⟨none⟩ (my_application_activate noIconEnv ⟨none⟩ GtkState.initial) 0) ∧
    (my_application_activate noIconEnv ⟨none⟩ GtkState.initial).windowVisible 0 = false ∧
    (first_frame_cb ⟨none⟩
      (my_application_activate noIconEnv ⟨none⟩ GtkState.initial) 0).windowVisible 0 = true := by
  have hrun1 : Run ⟨none⟩ GtkState.initial [LifecycleEvent.activate noIconEnv]
      (my_application_activate noIconEnv ⟨none⟩ GtkState.initial) :=
    Run.snoc _ _ _ [] _ (Run.nil _) (Step.activate noIconEnv GtkState.initial)
  have hrun2 : Run ⟨none⟩ GtkState.initial
      [LifecycleEvent.activate noIconEnv, LifecycleEvent.first_frame 0]
      (first_frame_cb ⟨none⟩ (my_application_activate noIconEnv ⟨none⟩ GtkState.initial) 0) :=
    Run.snoc _ _ _ [LifecycleEvent.activate noIconEnv] _ hrun1
      (Step.first_frame (my_application_activate noIconEnv ⟨none⟩ GtkState.initial) 0 (by rfl))
  refine ⟨hrun2, by rfl, ?_⟩
  exact (window_hidden_until_first_frame ⟨none⟩ _ _ hrun2).2.1 0 (by simp [firstFrameFired])

end FreecadNavigator
